import Mathlib

/-!
# Verification of the offline-first persistence pipeline

Shallow embedding of the persistence core of the repository
(`src/modules/persistence`): the retry policy engine (`retryManager.ts`),
the metadata helpers (`metadata.ts`), the durable queue store
(`queue/store/queueStore.ts`), the queue manager (`queue/QueueManager.ts`,
the `QueueHelpers` revision), the event bus (`core/eventBus.ts`) and the
orchestrator (`core/orchestrator.ts`, the revision wired to `IQueueManager`).

JavaScript conventions used throughout the embedding:
* `Date.now()` is passed in as an explicit `now : Int` argument;
* optional `number` fields are `Option Int`; a JS truthiness test on such a
  field (`task.expiresAt && ...`) is `jsTruthy`, which is false for both
  `undefined` and `0`, exactly as in JS;
* a thrown exception is modelled by an explicit flag or sum in the result;
* the outcome of an awaited external callback (the task processor, a
  persistence strategy, an event handler) is an explicit parameter, since
  the callback itself is an external collaborator.
-/

namespace VueForma

/-- JS truthiness of an optional number: `undefined` and `0` are falsy. -/
def jsTruthy : Option Int → Bool
  | none => false
  | some x => x != 0

/-- Model of `String.prototype.toLowerCase()` (structural recursion over
the character list, so that concrete instances evaluate by reduction). -/
def toLowerStr (s : String) : String := String.mk (s.toList.map Char.toLower)

/-- Test that `pat` occurs as a contiguous sublist of the second list. -/
def listContainsSeq (pat : List Char) : List Char → Bool
  | [] => pat.isEmpty
  | c :: cs => pat.isPrefixOf (c :: cs) || listContainsSeq pat cs

/-- Model of `String.prototype.includes(pat)`. -/
def strContains (s pat : String) : Bool := listContainsSeq pat.toList s.toList

/-!
## Error model (`core/retryManager.ts`, `analyzeError`)

`analyzeError` receives an arbitrary JS value.  The embedding records the
exact observations the function makes of that value: whether it is a
`TypeError`, whether it is an object, whether it has a `response` field (and
that response's optional numeric `status`), an optional `code` string field
and an optional `message` string field.
-/

/-- Observable shape of a JS error value, as inspected by `analyzeError`. -/
structure JSError where
  /-- JS test `error instanceof TypeError` -/
  isTypeError : Bool := false
  /-- JS test `error && typeof error === 'object'` -/
  isObject : Bool := false
  /-- JS test `'response' in error` -/
  hasResponse : Bool := false
  /-- Value of `error.response?.status` (`none` = `undefined`) -/
  responseStatus : Option Int := none
  /-- JS test `'code' in error` with its string value -/
  code : Option String := none
  /-- JS test `'message' in error` with its string value -/
  message : Option String := none
deriving DecidableEq, Repr

/-- Result of `analyzeError` (the human-readable `message` that the source
also assembles is purely diagnostic and is not modelled). -/
structure ErrorAnalysis where
  isRetryable : Bool
  httpStatus : Option Int := none
  code : Option String := none
deriving DecidableEq, Repr

/-- Embedding of `analyzeError` (`core/retryManager.ts` lines 78–170): classifies an error
and decides whether it is retryable.  Unknown errors default to
`isRetryable = false` (`UNKNOWN_ERROR`). -/
def analyzeError (e : JSError) : ErrorAnalysis :=
  -- TypeError network check
  if e.isTypeError &&
      (let m := toLowerStr (e.message.getD "")
       strContains m "fetch" || strContains m "network" ||
         strContains m "failed to fetch") then
    { isRetryable := true, code := some "NETWORK_ERROR" }
  -- `'response' in error`, server errors 5xx
  else if e.isObject && e.hasResponse &&
      (match e.responseStatus with
       | some s => decide (500 ≤ s) && decide (s < 600)
       | none => false) then
    { isRetryable := true, httpStatus := e.responseStatus
      code := some "SERVER_ERROR" }
  -- `'response' in error`, client errors 4xx
  else if e.isObject && e.hasResponse &&
      (match e.responseStatus with
       | some s => decide (400 ≤ s) && decide (s < 500)
       | none => false) then
    if e.responseStatus == some 408 || e.responseStatus == some 429 then
      { isRetryable := true, httpStatus := e.responseStatus
        code := some (if e.responseStatus == some 408 then "TIMEOUT" else "RATE_LIMIT") }
    else
      { isRetryable := false, httpStatus := e.responseStatus
        code := some "CLIENT_ERROR" }
  -- `'code' in error`
  else if e.isObject &&
      (match e.code with
       | some c => c == "ECONNABORTED" || c == "ETIMEDOUT" || c == "TIMEOUT"
       | none => false) then
    { isRetryable := true, code := some "TIMEOUT" }
  -- `'message' in error` containing timeout/aborted
  else if e.isObject &&
      (match e.message with
       | some m => strContains (toLowerStr m) "timeout" ||
           strContains (toLowerStr m) "aborted"
       | none => false) then
    { isRetryable := true, code := some "TIMEOUT" }
  -- default: unknown, not retryable
  else
    { isRetryable := false, code := some "UNKNOWN_ERROR" }

/-!
## Retry configuration and delay (`core/retryManager.ts`)
-/

/-- Embedding of `RetryConfig`.  All durations are in milliseconds. -/
structure RetryConfig where
  maxRetries : Nat
  maxFastRetries : Nat
  initialDelay : Nat
  exponentialBackoffInitialDelay : Nat
  backoffMultiplier : Nat
  maxDelay : Nat
deriving DecidableEq, Repr

/-- Embedding of `DEFAULT_RETRY_CONFIG`. -/
def DEFAULT_RETRY_CONFIG : RetryConfig :=
  { maxRetries := 3
    maxFastRetries := 0
    initialDelay := 2000
    exponentialBackoffInitialDelay := 240000
    backoffMultiplier := 4
    maxDelay := 6000000 }

/-- Embedding of `calculateRetryDelay` (`core/retryManager.ts` lines 184–209):
`0` for `retryCount = 0`; a fixed `initialDelay` during the fast-retry
phase (`0 < maxFastRetries` and `retryCount ≤ maxFastRetries`, not clamped);
otherwise exponential backoff
`exponentialBackoffInitialDelay * backoffMultiplier ^ (exponentialAttempts - 1)`
clamped by `Math.min` to `maxDelay`. -/
def calculateRetryDelay (retryCount : Nat) (config : RetryConfig) : Nat :=
  if retryCount = 0 then 0
  else if 0 < config.maxFastRetries ∧ retryCount ≤ config.maxFastRetries then
    config.initialDelay
  else
    let exponentialAttempts :=
      if 0 < config.maxFastRetries then retryCount - config.maxFastRetries
      else retryCount
    let delay := config.exponentialBackoffInitialDelay *
      config.backoffMultiplier ^ (exponentialAttempts - 1)
    min delay config.maxDelay

/-!
## Metadata (`core/types.ts`, `core/metadata.ts`)
-/

/-- Embedding of `SyncStatus`. -/
inductive SyncStatus where
  | pending
  | syncing
  | synced
  | error
  | conflict
deriving DecidableEq, Repr

/-- Embedding of `PersistenceMetadata`. -/
structure PersistenceMetadata where
  frontId : String
  backendId : Option String := none
  syncStatus : SyncStatus
  retryCount : Nat
  maxRetries : Nat
  createdAt : Int := 0
  lastSyncAt : Option Int := none
  version : Option Nat := none
  /-- Last failure recorded (the source stores the raw error value) -/
  error : Option JSError := none
deriving DecidableEq, Repr

/-- JS `a || b` on optional strings: `undefined` and `""` are falsy. -/
def jsOrStr (a b : Option String) : Option String :=
  match a with
  | some s => if s = "" then b else some s
  | none => b

/-- JS `a || b` on optional naturals: `undefined` and `0` are falsy. -/
def jsOrNat (a b : Option Nat) : Option Nat :=
  match a with
  | some n => if n = 0 then b else some n
  | none => b

/-- Embedding of `updateMetadataOnSuccess` (`core/metadata.ts`): mark `synced`, absorb a
backend id and version when truthy, stamp `lastSyncAt`, clear `error`. -/
def updateMetadataOnSuccess (md : PersistenceMetadata)
    (backendId : Option String) (version : Option Nat) (now : Int) :
    PersistenceMetadata :=
  { md with
    syncStatus := .synced
    backendId := jsOrStr backendId md.backendId
    version := jsOrNat version md.version
    lastSyncAt := some now
    error := none }

/-- Embedding of `updateMetadataOnError` (`core/metadata.ts` lines 47–58): mark `error`,
record the error, increment `retryCount`, stamp `lastSyncAt`. -/
def updateMetadataOnError (md : PersistenceMetadata) (e : JSError)
    (now : Int) : PersistenceMetadata :=
  { md with
    syncStatus := .error
    error := some e
    retryCount := md.retryCount + 1
    lastSyncAt := some now }

/-- Embedding of `updateMetadataOnSyncing` (`core/metadata.ts`). -/
def updateMetadataOnSyncing (md : PersistenceMetadata) (now : Int) :
    PersistenceMetadata :=
  { md with syncStatus := .syncing, lastSyncAt := some now }

/-!
## Tasks (`core/types.ts`)
-/

/-- Embedding of `PersistenceOperation`. -/
inductive PersistenceOperation where
  | create
  | update
  | delete
deriving DecidableEq, Repr

/-- Embedding of `PersistableEntity<T>`: entity snapshot plus its metadata. -/
structure PersistableEntity (T : Type) where
  data : T
  metadata : PersistenceMetadata
deriving DecidableEq, Repr

/-- Embedding of `PersistenceTask<T>`. -/
structure PersistenceTask (T : Type) where
  id : String
  entityType : String
  operation : PersistenceOperation
  payload : PersistableEntity T
  priority : Int
  createdAt : Int
  retryCount : Nat
  maxRetries : Nat
  retryAt : Option Int := none
  maxAge : Option Int := none
  expiresAt : Option Int := none
deriving DecidableEq, Repr

/-!
## Retry eligibility (`core/retryManager.ts`, `RetryManager.shouldRetry`)
-/

/-- Embedding of `RetryManager.shouldRetry` (`core/retryManager.ts` lines 224–254):
false when the error analysis says the error is not retryable, false when
the task's `expiresAt` is truthy and has passed, false when
`retryCount >= maxRetries`, true otherwise. -/
def shouldRetry {T : Type} (error : JSError) (task : PersistenceTask T)
    (now : Int) : Bool :=
  if !(analyzeError error).isRetryable then false
  -- `task.expiresAt && Date.now() > task.expiresAt`
  else if jsTruthy task.expiresAt && decide (task.expiresAt.getD 0 < now) then
    false
  -- `task.retryCount >= task.maxRetries`
  else if task.maxRetries ≤ task.retryCount then false
  else true

/-!
## Durable queue store (`queue/store/queueStore.ts`)

The Pinia store's `pendingTasks` array is a `List (PersistenceTask T)`.
-/

/-- Insertion step of the store's `enqueue` (`queueStore.ts` lines 49–59):
`findIndex` of the first pending task with strictly lower priority, `splice`
the new task in at that index, or `push` at the end when there is none.
The recursion computes exactly that: the new task is placed immediately
before the first element with `t.priority < task.priority`. -/
def insertByPriority {T : Type} :
    List (PersistenceTask T) → PersistenceTask T → List (PersistenceTask T)
  | [], task => [task]
  | t :: ts, task =>
    if t.priority < task.priority then task :: t :: ts
    else t :: insertByPriority ts task

/-- The store's `enqueue` (`queueStore.ts` lines 35–61): skip when a task
with the same id is already pending, otherwise insert in priority order. -/
def storeEnqueue {T : Type} (pendingTasks : List (PersistenceTask T))
    (task : PersistenceTask T) : List (PersistenceTask T) :=
  if pendingTasks.any (fun t => t.id == task.id) then pendingTasks
  else insertByPriority pendingTasks task

/-- The store's `dequeue`: `findIndex` by id and `splice(index, 1)` — remove
the first task with the given id, if any. -/
def storeDequeue {T : Type} :
    List (PersistenceTask T) → String → List (PersistenceTask T)
  | [], _ => []
  | t :: ts, taskId => if t.id == taskId then ts else t :: storeDequeue ts taskId

/-- The store's `updateTask`: replace the first task with the given id by a
merged copy.  The partial-update object of the source is modelled by the
update function `f` applied to the stored task. -/
def storeUpdateTask {T : Type} :
    List (PersistenceTask T) → String → (PersistenceTask T → PersistenceTask T) →
    List (PersistenceTask T)
  | [], _, _ => []
  | t :: ts, taskId, f =>
    if t.id == taskId then f t :: ts else t :: storeUpdateTask ts taskId f

/-!
## Queue manager (`queue/QueueManager.ts`, `QueueHelpers` revision)
-/

/-- Embedding of `QueueHelpers.isTaskExpired` (`QueueManager.ts` lines 80–82):
`task.expiresAt ? now > task.expiresAt : false`. -/
def isTaskExpired {T : Type} (task : PersistenceTask T) (now : Int) : Bool :=
  if jsTruthy task.expiresAt then decide (task.expiresAt.getD 0 < now)
  else false

/-- Embedding of `QueueHelpers.calculateExpiresAt`:
`task.maxAge && !task.expiresAt ? task.createdAt + task.maxAge : task.expiresAt`. -/
def calculateExpiresAt {T : Type} (task : PersistenceTask T) : Option Int :=
  if jsTruthy task.maxAge && !jsTruthy task.expiresAt then
    some (task.createdAt + task.maxAge.getD 0)
  else task.expiresAt

/-- Embedding of `QueueHelpers.calculateRetryAt`: delay computed from the payload
metadata's `retryCount` (the task copy passed to
`retryManager.calculateDelay` overrides `retryCount` with
`task.payload.metadata.retryCount`), added to `now`. -/
def calculateRetryAt {T : Type} (task : PersistenceTask T)
    (config : RetryConfig) (now : Int) : Int :=
  now + (calculateRetryDelay task.payload.metadata.retryCount config : Int)

/-- In-memory state of a `PersistedQueueManager`, together with the store it
drives.  `maxQueueSize = none` models the default `Infinity`. -/
structure QMState (T : Type) where
  queue : List (PersistenceTask T)
  processing : List String
  hasProcessor : Bool
  isRunning : Bool
  maxQueueSize : Option Nat
  retryConfig : RetryConfig
deriving DecidableEq, Repr

/-- Model of `Set.prototype.add` on the processing set (no duplicates). -/
def addToSet (s : List String) (x : String) : List String :=
  if s.contains x then s else s ++ [x]

/-- Model of `Set.prototype.delete` on the processing set. -/
def removeFromSet (s : List String) (x : String) : List String :=
  s.filter (fun y => y != x)

/-- Outcome of awaiting `this.processor(task)`, an external callback:
it either resolves or rejects with an error value. -/
inductive ProcOutcome where
  | success
  | failure (e : JSError)
deriving DecidableEq, Repr

/-- Embedding of `PersistedQueueManager.handleTaskError` (`QueueManager.ts` lines
294–323): ask `shouldRetry` with the payload metadata's counters; when not
retryable, dequeue the task; otherwise update the metadata with
`updateMetadataOnError`, compute `retryAt` via
`QueueHelpers.calculateRetryAt` and update the stored task in place. -/
def handleTaskError {T : Type} (s : QMState T) (task : PersistenceTask T)
    (error : JSError) (now : Int) : QMState T :=
  let metadata := task.payload.metadata
  let sr := shouldRetry error
    { task with retryCount := metadata.retryCount
                maxRetries := metadata.maxRetries } now
  if !sr then { s with queue := storeDequeue s.queue task.id }
  else
    let updatedMetadata := updateMetadataOnError metadata error now
    let task1 := { task with
      payload := { task.payload with metadata := updatedMetadata } }
    let retryAt := calculateRetryAt task1 s.retryConfig now
    let upd := fun (u : PersistenceTask T) =>
      { u with payload := task1.payload, retryAt := some retryAt }
    { s with queue := storeUpdateTask s.queue task.id upd }

/-- Embedding of `PersistedQueueManager.processTask` (`QueueManager.ts` lines 259–288).
Returns the new state and whether the processor was invoked.  The `finally`
block removing the task id from the processing set is applied on every exit
path of the `try`/`catch`. -/
def processTask {T : Type} (s : QMState T) (task : PersistenceTask T)
    (now : Int) (outcome : ProcOutcome) : QMState T × Bool :=
  if !s.hasProcessor then (s, false)
  else
    let s1 : QMState T := { s with processing := addToSet s.processing task.id }
    -- try block
    if isTaskExpired task now then
      -- expired: dequeue and return (processor skipped); finally clears
      let s2 : QMState T := { s1 with queue := storeDequeue s1.queue task.id }
      ({ s2 with processing := removeFromSet s2.processing task.id }, false)
    else
      -- persist a freshly computed expiresAt when it differs
      let expiresAt := calculateExpiresAt task
      let upd := fun (u : PersistenceTask T) => { u with expiresAt := expiresAt }
      let s2 : QMState T :=
        if jsTruthy expiresAt && expiresAt != task.expiresAt then
          { s1 with queue := storeUpdateTask s1.queue task.id upd }
        else s1
      match outcome with
      | .success =>
        -- processor resolved: dequeue; finally clears
        let s3 : QMState T := { s2 with queue := storeDequeue s2.queue task.id }
        ({ s3 with processing := removeFromSet s3.processing task.id }, true)
      | .failure e =>
        -- processor rejected: catch → handleTaskError; finally clears
        let s3 := handleTaskError s2 task e now
        ({ s3 with processing := removeFromSet s3.processing task.id }, true)

/-- Embedding of `PersistedQueueManager.enqueue` (`QueueManager.ts` lines 134–145):
throw a capacity error when `queueSize >= maxQueueSize` (before touching the
store), otherwise insert through the store and start the processing loop
when idle and a processor is set.  The returned flag is true exactly when
the capacity error was thrown. -/
def managerEnqueue {T : Type} (s : QMState T) (task : PersistenceTask T) :
    QMState T × Bool :=
  let full :=
    match s.maxQueueSize with
    | none => false -- `queueSize >= Infinity` never holds
    | some m => decide (m ≤ s.queue.length)
  if full then (s, true)
  else
    let s1 : QMState T := { s with queue := storeEnqueue s.queue task }
    if !s1.isRunning && s1.hasProcessor then
      ({ s1 with isRunning := true }, false)
    else (s1, false)

/-!
## Event bus (`core/eventBus.ts`)

A handler is an external callback; its observable behaviour when invoked is
either a normal return, a synchronous throw, or a returned promise that
later rejects.  The bus stores, per event name, its handlers in
registration order (a JS `Set` iterates in insertion order).
-/

/-- Behaviour of one registered handler when invoked. -/
inductive HandlerBehavior where
  | ok
  | throwsSync
  | rejectsAsync
deriving DecidableEq, Repr

/-- A registered handler: an identity plus its behaviour. -/
structure Handler where
  hid : Nat
  behavior : HandlerBehavior
deriving DecidableEq, Repr

/-- The bus's `handlers` map: event name → handlers in insertion order. -/
def EventBusState := List (String × List Handler)

/-- Embedding of `EventBus.on`: create the per-event set on demand; `Set.add` ignores a
handler already present. -/
def busOn (bus : EventBusState) (event : String) (h : Handler) :
    EventBusState :=
  match bus with
  | [] => [(event, [h])]
  | (ev, hs) :: rest =>
    if ev == event then
      (ev, if hs.any (fun g => g.hid == h.hid) then hs else hs ++ [h]) :: rest
    else (ev, hs) :: busOn rest event h

/-- Handlers currently registered for an event (`handlers.get(event)`). -/
def busHandlers (bus : EventBusState) (event : String) : List Handler :=
  match bus.find? (fun p => p.1 == event) with
  | some (_, hs) => hs
  | none => []

/-- Result of one `emit`: which handlers ran (in order), which failures were
caught and logged, and whether any failure escaped to the emitter. -/
structure EmitResult where
  invoked : List Nat
  logged : List Nat
  propagated : Bool
deriving DecidableEq, Repr

/-- Embedding of the `handlers.forEach` body of `EventBus.emit` (`eventBus.ts` lines
45–63): each handler is invoked inside `try`/`catch`; a synchronous throw is
caught and logged; a returned promise gets a `.catch` that logs; nothing is
rethrown, so iteration always continues with the next handler. -/
def runHandlers : List Handler → EmitResult
  | [] => { invoked := [], logged := [], propagated := false }
  | h :: hs =>
    let r := runHandlers hs
    { invoked := h.hid :: r.invoked
      logged := match h.behavior with
        | .ok => r.logged
        | .throwsSync => h.hid :: r.logged
        | .rejectsAsync => h.hid :: r.logged
      propagated := r.propagated }

/-- Embedding of `EventBus.emit`: look up the event's handler set; when absent, do
nothing; otherwise run every handler. -/
def busEmit (bus : EventBusState) (event : String) : EmitResult :=
  match bus.find? (fun p => p.1 == event) with
  | some (_, hs) => runHandlers hs
  | none => { invoked := [], logged := [], propagated := false }

/-!
## Orchestrator (`core/orchestrator.ts`, revision wired to `IQueueManager`,
`processTask` at lines 479–541)
-/

/-- Outcome of awaiting the strategy call for the task's operation
(`persistCreate` / `persistUpdate` / `persistDelete`), an external
collaborator: resolves with a persisted entity (ignored for `delete`) or
rejects with an error value. -/
inductive StrategyOutcome (T : Type) where
  | success (persisted : PersistableEntity T)
  | failure (e : JSError)

/-- What `PersistenceOrchestrator.processTask` throws, if anything: the
"no strategy registered" configuration error, or the strategy's own error
re-raised after handling. -/
inductive OrchThrown where
  | noStrategy
  | strategyError (e : JSError)
deriving DecidableEq, Repr

/-- Observable result of one `PersistenceOrchestrator.processTask` call:
the events emitted on the bus in order, the task as left by the call (its
payload metadata may have been reassigned), what was thrown, and the queue
mutations (dequeue/updateTask/enqueue calls) the orchestrator performed. -/
structure OrchDispatchResult (T : Type) where
  events : List String
  task : PersistenceTask T
  thrown : Option OrchThrown
  queueOps : List String
  /-- Persisted entity carried by `entity:persisted`, when emitted -/
  persisted : Option (PersistableEntity T)

/-- Embedding of `getErrorEventName` (`orchestrator.ts`): operation-specific error
event. -/
def getErrorEventName : PersistenceOperation → String
  | .create => "entity:persist-error"
  | .update => "entity:update-error"
  | .delete => "entity:delete-error"

/-- Embedding of `PersistenceOrchestrator.processTask` (`orchestrator.ts` lines 479–541).
`registered` is the set of entity types with a registered strategy;
`getBackendId` models the `(persisted.data as any)?._id` access; the
strategy call's outcome is the `outcome` parameter.  On failure the
metadata (already moved to `syncing`) is updated with
`updateMetadataOnError`, the operation-specific error event and
`queue:task-failed` are emitted, and the same error is re-thrown; no queue
mutation is ever performed by this method. -/
def orchProcessTask {T : Type} (registered : List String)
    (getBackendId : T → Option String) (task : PersistenceTask T)
    (outcome : StrategyOutcome T) (now : Int) : OrchDispatchResult T :=
  if !registered.contains task.entityType then
    { events := [], task := task, thrown := some .noStrategy, queueOps := []
      persisted := none }
  else
    -- emit 'queue:task-processing', then move metadata to syncing
    let md1 := updateMetadataOnSyncing task.payload.metadata now
    let task1 : PersistenceTask T :=
      { task with payload := { task.payload with metadata := md1 } }
    match outcome with
    | .success persisted =>
      -- for delete the source returns the (mutated) task payload itself
      let persisted1 :=
        match task.operation with
        | .delete => task1.payload
        | _ => persisted
      let md2 := updateMetadataOnSuccess persisted1.metadata
        (getBackendId persisted1.data) persisted1.metadata.version now
      let persisted2 : PersistableEntity T := { persisted1 with metadata := md2 }
      { events := ["queue:task-processing", "entity:persisted",
                   "queue:task-completed"]
        task := task1
        thrown := none
        queueOps := []
        persisted := some persisted2 }
    | .failure e =>
      let md2 := updateMetadataOnError md1 e now
      let task2 : PersistenceTask T :=
        { task1 with payload := { task1.payload with metadata := md2 } }
      { events := ["queue:task-processing", getErrorEventName task.operation,
                   "queue:task-failed"]
        task := task2
        thrown := some (.strategyError e)
        queueOps := []
        persisted := none }

/-!
## Concrete fixtures

Concrete configurations, errors, tasks and states used by the closed
instances of the theorems below.
-/

/-- Retry configuration of the spec's concrete backoff scenario:
initial backoff delay 30000 ms, multiplier 4, maximum delay 600000 ms, no
fast-retry phase. -/
def cfgScenario : RetryConfig :=
  { maxRetries := 3
    maxFastRetries := 0
    initialDelay := 2000
    exponentialBackoffInitialDelay := 30000
    backoffMultiplier := 4
    maxDelay := 600000 }

/-- Retry configuration with a fast-retry phase (`maxFastRetries = 1`)
whose fixed fast delay (1000 ms) exceeds both `maxDelay` (500 ms) and the
first exponential-backoff delay (100 ms). -/
def cfgFast : RetryConfig :=
  { maxRetries := 3
    maxFastRetries := 1
    initialDelay := 1000
    exponentialBackoffInitialDelay := 100
    backoffMultiplier := 4
    maxDelay := 500 }

/-- Generic error object: an object with only a `message` field whose text
mentions neither a timeout nor an abort — `analyzeError` classifies it
`UNKNOWN_ERROR`, not retryable. -/
def errGeneric : JSError := { isObject := true, message := some "boom" }

/-- Network error: a `TypeError` whose message is `"Failed to fetch"` —
`analyzeError` classifies it `NETWORK_ERROR`, retryable. -/
def errNetwork : JSError :=
  { isTypeError := true, isObject := true, message := some "Failed to fetch" }

/-- Baseline metadata: freshly created entity, no retries yet. -/
def mdBase : PersistenceMetadata :=
  { frontId := "front-1", syncStatus := .pending, retryCount := 0
    maxRetries := 3, createdAt := 100 }

/-- Baseline task over `Nat` data: priority 5, created at 100, no retryAt,
no expiry, retry budget 3. -/
def taskBase : PersistenceTask Nat :=
  { id := "task-1", entityType := "note", operation := .create
    payload := { data := 7, metadata := mdBase }
    priority := 5, createdAt := 100, retryCount := 0, maxRetries := 3 }

/-- Helper building a variant of `taskBase` with a given id and priority. -/
def mkTask (i : String) (p : Int) : PersistenceTask Nat :=
  { taskBase with id := i, priority := p }

/-- Baseline queue-manager state: a processor is set, the loop is running,
no capacity bound, default retry configuration. -/
def qmBase : QMState Nat :=
  { queue := [], processing := [], hasProcessor := true, isRunning := true
    maxQueueSize := none, retryConfig := DEFAULT_RETRY_CONFIG }

/-- Task that expired at time 150 with its whole retry budget left. -/
def taskExpired : PersistenceTask Nat := { taskBase with expiresAt := some 150 }

/-- Manager state holding only the expired task. -/
def qmExpired : QMState Nat := { qmBase with queue := [taskExpired] }

/-- Manager state capped at one task with one task already pending. -/
def qmCapped : QMState Nat :=
  { qmBase with queue := [mkTask "a" 5], maxQueueSize := some 1 }

/-- Manager state capped at five tasks with one task pending. -/
def qmRoomy : QMState Nat :=
  { qmBase with queue := [mkTask "a" 5], maxQueueSize := some 5 }

/-- Demo event bus: three handlers registered for `entity:created` in
order, the middle one throwing synchronously; nothing registered for
`entity:deleted`. -/
def busDemo : EventBusState :=
  [("entity:created",
    [{ hid := 1, behavior := .ok }, { hid := 2, behavior := .throwsSync },
     { hid := 3, behavior := .ok }])]

/-!
## Helper lemmas
-/

/-- Inserting by priority permutes consing: the inserted task is placed
somewhere inside the list, nothing else is added or removed. -/
theorem insertByPriority_perm {T : Type} (q : List (PersistenceTask T))
    (t : PersistenceTask T) : List.Perm (insertByPriority q t) (t :: q) := by
  induction q with
  | nil => simp [insertByPriority]
  | cons a as ih =>
    by_cases h : a.priority < t.priority
    · simp [insertByPriority, h]
    · simp only [insertByPriority, if_neg h]
      exact (ih.cons a).trans (List.Perm.swap t a as)

/-- Decomposition of `insertByPriority`: the new task lands immediately
before the first element of strictly lower priority, after a prefix of
elements of priority at least its own. -/
theorem insertByPriority_split {T : Type} (q : List (PersistenceTask T))
    (t : PersistenceTask T) :
    ∃ q₁ q₂, q = q₁ ++ q₂ ∧ insertByPriority q t = q₁ ++ t :: q₂ ∧
      (∀ u ∈ q₁, t.priority ≤ u.priority) ∧
      (∀ u, q₂.head? = some u → u.priority < t.priority) := by
  induction q with
  | nil =>
    refine ⟨[], [], rfl, rfl, by simp, by simp⟩
  | cons a as ih =>
    by_cases h : a.priority < t.priority
    · refine ⟨[], a :: as, rfl, by simp [insertByPriority, h], by simp, ?_⟩
      intro u hu
      simp only [List.head?_cons, Option.some.injEq] at hu
      exact hu ▸ h
    · obtain ⟨q₁, q₂, he, hi, h₁, h₂⟩ := ih
      refine ⟨a :: q₁, q₂, by rw [List.cons_append, ← he],
        by simp [insertByPriority, h, hi], ?_, h₂⟩
      intro u hu
      rcases List.mem_cons.mp hu with rfl | hu
      · exact le_of_not_lt h
      · exact h₁ u hu

/-- Inserting by priority preserves the descending-priority ordering of the
pending list. -/
theorem insertByPriority_sorted {T : Type} (q : List (PersistenceTask T))
    (t : PersistenceTask T)
    (hs : q.Pairwise (fun a b => b.priority ≤ a.priority)) :
    (insertByPriority q t).Pairwise (fun a b => b.priority ≤ a.priority) := by
  induction q with
  | nil => simp [insertByPriority]
  | cons a as ih =>
    rcases List.pairwise_cons.mp hs with ⟨ha, has⟩
    by_cases h : a.priority < t.priority
    · simp only [insertByPriority, if_pos h]
      refine List.pairwise_cons.mpr ⟨?_, hs⟩
      intro u hu
      rcases List.mem_cons.mp hu with rfl | hu
      · exact le_of_lt h
      · exact le_trans (ha u hu) (le_of_lt h)
    · simp only [insertByPriority, if_neg h]
      refine List.pairwise_cons.mpr ⟨?_, ih has⟩
      intro u hu
      rcases List.mem_cons.mp ((insertByPriority_perm as t).mem_iff.mp hu) with
        rfl | hu
      · exact le_of_not_lt h
      · exact ha u hu

/-- Removal by id leaves no task with that id when the stored ids were
distinct. -/
theorem storeDequeue_id_gone {T : Type} (q : List (PersistenceTask T))
    (taskId : String) (hids : (q.map (fun u => u.id)).Nodup) :
    ∀ u ∈ storeDequeue q taskId, u.id ≠ taskId := by
  induction q with
  | nil => intro u hu; simp [storeDequeue] at hu
  | cons a as ih =>
    simp only [List.map_cons, List.nodup_cons] at hids
    intro u hu
    by_cases h : a.id == taskId
    · simp only [storeDequeue, if_pos h] at hu
      intro hut
      apply hids.1
      rw [eq_of_beq h, ← hut]
      exact List.mem_map_of_mem (fun v => v.id) hu
    · simp only [storeDequeue, if_neg h] at hu
      rcases List.mem_cons.mp hu with rfl | hu
      · exact fun hc => h (beq_iff_eq.mpr hc)
      · exact ih hids.2 u hu

/-- A handled task error never changes the in-memory processing set. -/
theorem handleTaskError_processing {T : Type} (s : QMState T)
    (task : PersistenceTask T) (error : JSError) (now : Int) :
    (handleTaskError s task error now).processing = s.processing := by
  by_cases h : shouldRetry error
      { task with retryCount := task.payload.metadata.retryCount
                  maxRetries := task.payload.metadata.maxRetries } now
  · simp [handleTaskError, h]
  · simp [handleTaskError, h]

/-- An element is never a member of the set it was just deleted from. -/
theorem not_mem_removeFromSet (s : List String) (x : String) :
    x ∉ removeFromSet s x := by
  intro h
  rcases List.mem_filter.mp h with ⟨_, hne⟩
  simp at hne

/-- Handler-by-handler account of the emit loop: every handler is invoked,
in stored order. -/
theorem runHandlers_invoked (hs : List Handler) :
    (runHandlers hs).invoked = hs.map Handler.hid := by
  induction hs with
  | nil => rfl
  | cons h rest ih => simp [runHandlers, ih]

/-- No failure of a handler ever escapes the emit loop. -/
theorem runHandlers_propagated (hs : List Handler) :
    (runHandlers hs).propagated = false := by
  induction hs with
  | nil => rfl
  | cons h rest ih => simp [runHandlers, ih]

/-- The failures caught by the emit loop are exactly those of the handlers
that throw or reject, in stored order. -/
theorem runHandlers_logged (hs : List Handler) :
    (runHandlers hs).logged =
      (hs.filter (fun h => h.behavior != .ok)).map Handler.hid := by
  induction hs with
  | nil => rfl
  | cons h rest ih =>
    cases hb : h.behavior <;>
      simp [runHandlers, ih, List.filter_cons, hb]

/-!
## Claims
-/

/-- Claim C1, counterexample.  The claim states that `shouldRetry` never
depends on the error's category and returns true for every unexpired task
with retry budget remaining.  But for a generic object error whose message
mentions neither a timeout nor an abort, `analyzeError` answers
`UNKNOWN_ERROR` / not retryable, and `shouldRetry` returns false even
though the task has no expiry and `retryCount < maxRetries`. -/
theorem claim_C1_counterexample :
    taskBase.expiresAt = none ∧ taskBase.retryCount < taskBase.maxRetries ∧
    (analyzeError errGeneric).code = some "UNKNOWN_ERROR" ∧
    shouldRetry errGeneric taskBase 1000 = false :=
  ⟨rfl, by decide, rfl, rfl⟩

/-- Claim C1, amended: `RetryManager.shouldRetry(e, t)` returns true
exactly when the error analysis classifies `e` as retryable AND the task's
`expiresAt` (when truthy) has not passed AND `retryCount < maxRetries` —
retry eligibility does depend on the error's category, with unknown errors
not retryable by default. -/
theorem claim_C1_amended {T : Type} (e : JSError) (t : PersistenceTask T)
    (now : Int) :
    shouldRetry e t now = true ↔
      ((analyzeError e).isRetryable = true ∧
        ¬(jsTruthy t.expiresAt = true ∧ t.expiresAt.getD 0 < now) ∧
        t.retryCount < t.maxRetries) := by
  unfold shouldRetry
  by_cases h1 : (analyzeError e).isRetryable
  · by_cases h2 : jsTruthy t.expiresAt = true ∧ t.expiresAt.getD 0 < now
    · simp [h1, h2.1, h2.2]
    · by_cases h3 : t.maxRetries ≤ t.retryCount
      · simp only [h1, Bool.not_true]
        simp only [not_and] at h2
        constructor
        · intro hcontra
          by_cases h4 : jsTruthy t.expiresAt = true
          · simp [h4, not_lt.mp fun hl => h2 h4 hl, h3] at hcontra
          · simp only [Bool.not_eq_true] at h4
            simp [h4, h3] at hcontra
        · rintro ⟨_, _, hlt⟩
          omega
      · simp only [not_le] at h3
        simp only [not_and] at h2
        by_cases h4 : jsTruthy t.expiresAt = true
        · simp [h1, h4, not_lt.mp fun hl => h2 h4 hl, not_le.mpr h3, h3]
        · simp only [Bool.not_eq_true] at h4
          simp [h1, h4, not_le.mpr h3, h3]
  · simp only [Bool.not_eq_true] at h1
    simp [h1]

/-- Claim C2: with no fast-retry phase, `calculateRetryDelay` is `0` at
`retryCount = 0` and the exponential-backoff initial delay times
`multiplier ^ (retryCount - 1)` clamped to `maxDelay` for `retryCount ≥ 1`;
in the spec's concrete scenario (initial 30000, multiplier 4, maxDelay
600000) the delays for retryCount 1..4 are 30000, 120000, 480000, 600000. -/
theorem claim_C2 (cfg : RetryConfig) (h : cfg.maxFastRetries = 0) :
    calculateRetryDelay 0 cfg = 0 ∧
    (∀ n, 1 ≤ n → calculateRetryDelay n cfg =
      min (cfg.exponentialBackoffInitialDelay *
        cfg.backoffMultiplier ^ (n - 1)) cfg.maxDelay) ∧
    (calculateRetryDelay 1 cfgScenario = 30000 ∧
     calculateRetryDelay 2 cfgScenario = 120000 ∧
     calculateRetryDelay 3 cfgScenario = 480000 ∧
     calculateRetryDelay 4 cfgScenario = 600000) := by
  refine ⟨by simp [calculateRetryDelay], ?_, by decide⟩
  intro n hn
  have hn0 : n ≠ 0 := by omega
  simp [calculateRetryDelay, hn0, h]

/-- Claim C2, witness: the concrete scenario configuration has no
fast-retry phase, and the theorem instantiated at it. -/
theorem claim_C2_witness :
    cfgScenario.maxFastRetries = 0 ∧
    (calculateRetryDelay 0 cfgScenario = 0 ∧
    (∀ n, 1 ≤ n → calculateRetryDelay n cfgScenario =
      min (cfgScenario.exponentialBackoffInitialDelay *
        cfgScenario.backoffMultiplier ^ (n - 1)) cfgScenario.maxDelay) ∧
    (calculateRetryDelay 1 cfgScenario = 30000 ∧
     calculateRetryDelay 2 cfgScenario = 120000 ∧
     calculateRetryDelay 3 cfgScenario = 480000 ∧
     calculateRetryDelay 4 cfgScenario = 600000)) :=
  ⟨rfl, claim_C2 cfgScenario rfl⟩

/-- Claim C7, counterexample.  The claim quantifies over every retry
configuration with multiplier ≥ 1, but a configuration with a fast-retry
phase breaks both conjuncts: the fixed fast delay is not clamped to
`maxDelay`, and the first exponential-backoff delay may be smaller than the
fast delay, so the delay sequence is not monotone. -/
theorem claim_C7_counterexample :
    1 ≤ cfgFast.backoffMultiplier ∧
    calculateRetryDelay 2 cfgFast < calculateRetryDelay 1 cfgFast ∧
    cfgFast.maxDelay < calculateRetryDelay 1 cfgFast := by decide

/-- Claim C7, amended: for every retry configuration with multiplier ≥ 1
and no fast-retry phase (`maxFastRetries = 0`, the default), the delay
sequence is monotone — `calculateRetryDelay (n+1) ≥ calculateRetryDelay n`
— and bounded by `maxDelay` for all `n`. -/
theorem claim_C7_amended (cfg : RetryConfig)
    (hm : 1 ≤ cfg.backoffMultiplier) (hf : cfg.maxFastRetries = 0) :
    (∀ n, calculateRetryDelay n cfg ≤ calculateRetryDelay (n + 1) cfg) ∧
    (∀ n, calculateRetryDelay n cfg ≤ cfg.maxDelay) := by
  constructor
  · intro n
    rcases Nat.eq_zero_or_pos n with rfl | hn
    · simp [calculateRetryDelay]
    · have hn0 : n ≠ 0 := by omega
      have hn1 : n + 1 ≠ 0 := by omega
      simp only [calculateRetryDelay, hf, if_neg hn0, if_neg hn1]
      simp only [lt_irrefl, false_and, if_false, Nat.lt_irrefl]
      refine min_le_min (Nat.mul_le_mul_left _ ?_) le_rfl
      exact Nat.pow_le_pow_right hm (by omega)
  · intro n
    rcases Nat.eq_zero_or_pos n with rfl | hn
    · simp [calculateRetryDelay]
    · have hn0 : n ≠ 0 := by omega
      simp only [calculateRetryDelay, hf, if_neg hn0]
      simp only [lt_irrefl, false_and, if_false]
      exact min_le_right _ _

/-- Claim C3: when the task's id is not already pending, the store's
`enqueue` inserts it immediately before the first pending task of strictly
lower priority and after all tasks of equal or higher priority (the
existing tasks keep their relative order), and the descending-priority
sortedness of the pending list is preserved, equal-priority tasks staying
in insertion order.  Dispatch selects ready tasks by walking this list in
order, so higher priority is served no later than lower. -/
theorem claim_C3 {T : Type} (q : List (PersistenceTask T))
    (t : PersistenceTask T)
    (hfresh : q.any (fun u => u.id == t.id) = false) :
    (∃ q₁ q₂, q = q₁ ++ q₂ ∧ storeEnqueue q t = q₁ ++ t :: q₂ ∧
      (∀ u ∈ q₁, t.priority ≤ u.priority) ∧
      (∀ u, q₂.head? = some u → u.priority < t.priority)) ∧
    (q.Pairwise (fun a b => b.priority ≤ a.priority) →
      (storeEnqueue q t).Pairwise (fun a b => b.priority ≤ a.priority)) := by
  have he : storeEnqueue q t = insertByPriority q t := by
    simp [storeEnqueue, hfresh]
  rw [he]
  exact ⟨insertByPriority_split q t, insertByPriority_sorted q t⟩

/-- Claim C3, witness: enqueuing a priority-7 task into the sorted pending
list `[priority 10, priority 5]` of fresh ids; the theorem instantiated
there. -/
theorem claim_C3_witness :
    ([mkTask "b" 10, mkTask "a" 5].any
      (fun u => u.id == (mkTask "c" 7).id) = false) ∧
    ((∃ q₁ q₂, [mkTask "b" 10, mkTask "a" 5] = q₁ ++ q₂ ∧
      storeEnqueue [mkTask "b" 10, mkTask "a" 5] (mkTask "c" 7) =
        q₁ ++ mkTask "c" 7 :: q₂ ∧
      (∀ u ∈ q₁, (mkTask "c" 7).priority ≤ u.priority) ∧
      (∀ u, q₂.head? = some u → u.priority < (mkTask "c" 7).priority)) ∧
    ([mkTask "b" 10, mkTask "a" 5].Pairwise
        (fun a b => b.priority ≤ a.priority) →
      (storeEnqueue [mkTask "b" 10, mkTask "a" 5] (mkTask "c" 7)).Pairwise
        (fun a b => b.priority ≤ a.priority))) :=
  ⟨by decide, claim_C3 [mkTask "b" 10, mkTask "a" 5] (mkTask "c" 7) (by decide)⟩

/-- Claim C10: enqueuing a task whose id is already pending leaves the
queue unchanged (the duplicate is skipped, nothing is thrown, nothing is
modified), and consequently the store's `enqueue` preserves distinctness of
pending task ids — the durable queue never holds two tasks with the same
id. -/
theorem claim_C10 {T : Type} (q : List (PersistenceTask T))
    (t : PersistenceTask T) :
    ((∃ u ∈ q, u.id = t.id) → storeEnqueue q t = q) ∧
    ((q.map (fun u => u.id)).Nodup →
      ((storeEnqueue q t).map (fun u => u.id)).Nodup) := by
  constructor
  · rintro ⟨u, hu, hid⟩
    have ha : q.any (fun v => v.id == t.id) = true :=
      List.any_eq_true.mpr ⟨u, hu, beq_iff_eq.mpr hid⟩
    simp [storeEnqueue, ha]
  · intro hnd
    by_cases h : q.any (fun v => v.id == t.id)
    · simp [storeEnqueue, h, hnd]
    · have h' : q.any (fun v => v.id == t.id) = false :=
        Bool.not_eq_true _ ▸ eq_false_of_ne_true h
      have he : storeEnqueue q t = insertByPriority q t := by
        simp [storeEnqueue, h']
      rw [he]
      have hp : List.Perm ((insertByPriority q t).map (fun u => u.id))
          (t.id :: q.map (fun u => u.id)) := by
        simpa using (insertByPriority_perm q t).map (fun u => u.id)
      have hni : t.id ∉ q.map (fun u => u.id) := by
        intro hmem
        rcases List.mem_map.mp hmem with ⟨v, hv, hvid⟩
        have : q.any (fun v => v.id == t.id) = true :=
          List.any_eq_true.mpr ⟨v, hv, beq_iff_eq.mpr hvid⟩
        exact h this
      exact hp.nodup_iff.mpr (List.nodup_cons.mpr ⟨hni, hnd⟩)

/-- Claim C10, witness: re-enqueuing id `"a"` (even with another priority)
leaves the queue unchanged, and id-distinctness is preserved; the theorem
instantiated there. -/
theorem claim_C10_witness :
    storeEnqueue [mkTask "a" 5] (mkTask "a" 9) = [mkTask "a" 5] ∧
    ((storeEnqueue [mkTask "a" 5] (mkTask "a" 9)).map (fun u => u.id)).Nodup :=
  ⟨(claim_C10 [mkTask "a" 5] (mkTask "a" 9)).1 ⟨mkTask "a" 5, by decide, rfl⟩,
   (claim_C10 [mkTask "a" 5] (mkTask "a" 9)).2 (by decide)⟩

/-- Claim C4: when a dispatched task's `expiresAt` is set (truthy, i.e.
present and nonzero, the source's presence test) and earlier than the
current time, `processTask` removes the task from the durable queue and
never invokes the processor, whatever the processor outcome would have
been and however many retries remain in the task's budget (the statement
holds for every task, so in particular for `retryCount < maxRetries`). -/
theorem claim_C4 {T : Type} (s : QMState T) (t : PersistenceTask T)
    (now : Int) (outcome : ProcOutcome)
    (hproc : s.hasProcessor = true)
    (hset : jsTruthy t.expiresAt = true)
    (hpast : t.expiresAt.getD 0 < now)
    (hids : (s.queue.map (fun u => u.id)).Nodup) :
    (processTask s t now outcome).2 = false ∧
    (processTask s t now outcome).1.queue = storeDequeue s.queue t.id ∧
    (∀ u ∈ (processTask s t now outcome).1.queue, u.id ≠ t.id) := by
  have hexp : isTaskExpired t now = true := by
    simp [isTaskExpired, hset, hpast]
  have hres : processTask s t now outcome =
      ({ s with queue := storeDequeue s.queue t.id
                processing := removeFromSet (addToSet s.processing t.id) t.id },
       false) := by
    simp [processTask, hproc, hexp]
  rw [hres]
  exact ⟨rfl, rfl, storeDequeue_id_gone s.queue t.id hids⟩

/-- Claim C4, witness: a task that expired at time 150, dispatched at time
200 from a one-task queue; the theorem instantiated there. -/
theorem claim_C4_witness :
    qmExpired.hasProcessor = true ∧
    jsTruthy taskExpired.expiresAt = true ∧
    taskExpired.expiresAt.getD 0 < 200 ∧
    (qmExpired.queue.map (fun u => u.id)).Nodup ∧
    ((processTask qmExpired taskExpired 200 .success).2 = false ∧
     (processTask qmExpired taskExpired 200 .success).1.queue =
       storeDequeue qmExpired.queue taskExpired.id ∧
     (∀ u ∈ (processTask qmExpired taskExpired 200 .success).1.queue,
       u.id ≠ taskExpired.id)) :=
  ⟨rfl, by decide, by decide, by decide,
   claim_C4 qmExpired taskExpired 200 .success rfl (by decide) (by decide)
     (by decide)⟩

/-- Claim C6: `PersistedQueueManager.enqueue` throws the capacity error
exactly when the queue already holds at least `maxQueueSize` tasks, and in
that case the whole manager state — durable queue, processing set, running
flag — is left untouched (the throw happens before any store call, so
nothing is persisted and no processing loop is started); below capacity no
error is thrown, the task is handed to the store's insert (so a task with a
fresh id becomes pending). -/
theorem claim_C6 {T : Type} (s : QMState T) (t : PersistenceTask T) :
    (∀ m, s.maxQueueSize = some m → m ≤ s.queue.length →
      managerEnqueue s t = (s, true)) ∧
    ((s.maxQueueSize = none ∨
        ∃ m, s.maxQueueSize = some m ∧ s.queue.length < m) →
      ((managerEnqueue s t).2 = false ∧
       (managerEnqueue s t).1.queue = storeEnqueue s.queue t ∧
       (s.queue.any (fun u => u.id == t.id) = false →
         t ∈ (managerEnqueue s t).1.queue))) := by
  constructor
  · intro m hm hle
    simp [managerEnqueue, hm, hle]
  · intro hroom
    have hfull :
        (match s.maxQueueSize with
         | none => false
         | some m => decide (m ≤ s.queue.length)) = false := by
      rcases hroom with hn | ⟨m, hm, hlt⟩
      · simp [hn]
      · simp [hm, not_le.mpr hlt]
    have hmem : ∀ hq : (managerEnqueue s t).1.queue = storeEnqueue s.queue t,
        s.queue.any (fun u => u.id == t.id) = false →
        t ∈ (managerEnqueue s t).1.queue := by
      intro hq hfresh
      rw [hq]
      have he : storeEnqueue s.queue t = insertByPriority s.queue t := by
        simp [storeEnqueue, hfresh]
      rw [he]
      exact (insertByPriority_perm s.queue t).mem_iff.mpr (List.mem_cons_self t _)
    by_cases hrun : !s.isRunning && s.hasProcessor
    · have hq : (managerEnqueue s t).1.queue = storeEnqueue s.queue t := by
        simp [managerEnqueue, hfull, hrun]
      exact ⟨by simp [managerEnqueue, hfull, hrun], hq, hmem hq⟩
    · have hrun' : (!s.isRunning && s.hasProcessor) = false :=
        Bool.not_eq_true _ ▸ eq_false_of_ne_true hrun
      have hq : (managerEnqueue s t).1.queue = storeEnqueue s.queue t := by
        simp [managerEnqueue, hfull, hrun']
      exact ⟨by simp [managerEnqueue, hfull, hrun'], hq, hmem hq⟩

/-- Claim C6, witness: a manager capped at one task with one task pending
rejects a second task unchanged; the same manager uncapped accepts it; the
theorem instantiated at both states. -/
theorem claim_C6_witness :
    managerEnqueue qmCapped (mkTask "c" 7) = (qmCapped, true) ∧
    ((managerEnqueue qmRoomy (mkTask "c" 7)).2 = false ∧
     (managerEnqueue qmRoomy (mkTask "c" 7)).1.queue =
       storeEnqueue qmRoomy.queue (mkTask "c" 7) ∧
     (qmRoomy.queue.any (fun u => u.id == (mkTask "c" 7).id) = false →
       mkTask "c" 7 ∈ (managerEnqueue qmRoomy (mkTask "c" 7)).1.queue)) :=
  ⟨(claim_C6 qmCapped (mkTask "c" 7)).1 1 rfl (by decide),
   (claim_C6 qmRoomy (mkTask "c" 7)).2 (Or.inr ⟨5, rfl, by decide⟩)⟩

/-- Claim C8: a single-task dispatch never leaves a stuck in-flight marker:
on every exit path of `processTask` — success, failure with reschedule,
failure with removal, expiry — the task's id is absent from the in-memory
processing set when the dispatch completes (the `finally` clears it). -/
theorem claim_C8 {T : Type} (s : QMState T) (t : PersistenceTask T)
    (now : Int) (outcome : ProcOutcome) (hproc : s.hasProcessor = true) :
    t.id ∉ (processTask s t now outcome).1.processing := by
  unfold processTask
  simp only [hproc, Bool.not_true, Bool.false_eq_true, if_false]
  by_cases hexp : isTaskExpired t now
  · simp only [hexp, if_true]
    exact not_mem_removeFromSet _ _
  · have hexp' : isTaskExpired t now = false :=
      Bool.not_eq_true _ ▸ eq_false_of_ne_true hexp
    simp only [hexp', Bool.false_eq_true, if_false]
    cases outcome with
    | success => exact not_mem_removeFromSet _ _
    | failure e => exact not_mem_removeFromSet _ _

/-- Claim C8, witness: the processing set is clear of the task id after a
failing dispatch of the baseline task; the theorem instantiated there. -/
theorem claim_C8_witness :
    qmBase.hasProcessor = true ∧
    taskBase.id ∉
      (processTask qmBase taskBase 200 (.failure errGeneric)).1.processing :=
  ⟨rfl, claim_C8 qmBase taskBase 200 (.failure errGeneric) rfl⟩

/-- Claim C5: for a task whose entity type has a registered strategy, a
failing strategy call makes the orchestrator's `processTask` set the
payload metadata to `error` with `retryCount` incremented and the error
recorded, emit the operation-specific error event (`entity:persist-error`
for create, `entity:update-error` for update, `entity:delete-error` for
delete) followed by `queue:task-failed`, and re-raise the same error to
the queue; it performs no queue mutation itself (never removes or
reschedules the task). -/
theorem claim_C5 {T : Type} (registered : List String)
    (getBackendId : T → Option String) (t : PersistenceTask T) (e : JSError)
    (now : Int) (hreg : registered.contains t.entityType = true) :
    (orchProcessTask registered getBackendId t (.failure e) now).events =
      ["queue:task-processing", getErrorEventName t.operation,
       "queue:task-failed"] ∧
    (getErrorEventName .create = "entity:persist-error" ∧
     getErrorEventName .update = "entity:update-error" ∧
     getErrorEventName .delete = "entity:delete-error") ∧
    (orchProcessTask registered getBackendId t
      (.failure e) now).task.payload.metadata.syncStatus = .error ∧
    (orchProcessTask registered getBackendId t
      (.failure e) now).task.payload.metadata.retryCount =
        t.payload.metadata.retryCount + 1 ∧
    (orchProcessTask registered getBackendId t
      (.failure e) now).task.payload.metadata.error = some e ∧
    (orchProcessTask registered getBackendId t (.failure e) now).thrown =
      some (.strategyError e) ∧
    (orchProcessTask registered getBackendId t (.failure e) now).queueOps =
      [] := by
  have hmem : t.entityType ∈ registered := by simpa using hreg
  refine ⟨?_, ⟨rfl, rfl, rfl⟩, ?_, ?_, ?_, ?_, ?_⟩ <;>
    simp [orchProcessTask, hmem, updateMetadataOnError, updateMetadataOnSyncing]

/-- Claim C5, witness: a registered `"note"` strategy failing with the
generic error on the baseline create task; the theorem instantiated
there. -/
theorem claim_C5_witness :
    (["note"].contains taskBase.entityType = true) ∧
    ((orchProcessTask ["note"] (fun _ => none) taskBase
        (.failure errGeneric) 500).events =
      ["queue:task-processing", getErrorEventName taskBase.operation,
       "queue:task-failed"] ∧
    (getErrorEventName .create = "entity:persist-error" ∧
     getErrorEventName .update = "entity:update-error" ∧
     getErrorEventName .delete = "entity:delete-error") ∧
    (orchProcessTask ["note"] (fun _ => none) taskBase
      (.failure errGeneric) 500).task.payload.metadata.syncStatus = .error ∧
    (orchProcessTask ["note"] (fun _ => none) taskBase
      (.failure errGeneric) 500).task.payload.metadata.retryCount =
        taskBase.payload.metadata.retryCount + 1 ∧
    (orchProcessTask ["note"] (fun _ => none) taskBase
      (.failure errGeneric) 500).task.payload.metadata.error =
        some errGeneric ∧
    (orchProcessTask ["note"] (fun _ => none) taskBase
      (.failure errGeneric) 500).thrown =
      some (.strategyError errGeneric) ∧
    (orchProcessTask ["note"] (fun _ => none) taskBase
      (.failure errGeneric) 500).queueOps = []) :=
  ⟨rfl, claim_C5 ["note"] (fun _ => none) taskBase errGeneric 500 rfl⟩

/-- Claim C9: `EventBus.emit` invokes every handler currently registered
for the event, in registration order (`on` appends a new handler at the
end of the event's set); a handler that throws synchronously or rejects
asynchronously is caught and logged, never propagated to the emitter, and
never prevents the remaining handlers from running; emitting an event with
no registered handlers does nothing and does not fail. -/
theorem claim_C9 (bus : EventBusState) (event : String) :
    (busEmit bus event).invoked = (busHandlers bus event).map Handler.hid ∧
    (busEmit bus event).propagated = false ∧
    (busEmit bus event).logged =
      ((busHandlers bus event).filter
        (fun h => h.behavior != .ok)).map Handler.hid ∧
    (bus.find? (fun p => p.1 == event) = none →
      busEmit bus event = { invoked := [], logged := [], propagated := false }) ∧
    (∀ h, (busHandlers bus event).any (fun g => g.hid == h.hid) = false →
      busHandlers (busOn bus event h) event = busHandlers bus event ++ [h]) := by
  refine ⟨?_, ?_, ?_, ?_, ?_⟩
  · unfold busEmit busHandlers
    cases hf : bus.find? (fun p => p.1 == event) with
    | none => rfl
    | some p => exact runHandlers_invoked p.2
  · unfold busEmit
    cases hf : bus.find? (fun p => p.1 == event) with
    | none => rfl
    | some p => exact runHandlers_propagated p.2
  · unfold busEmit busHandlers
    cases hf : bus.find? (fun p => p.1 == event) with
    | none => rfl
    | some p => exact runHandlers_logged p.2
  · intro hf
    unfold busEmit
    rw [hf]
  · intro h hnot
    induction bus with
    | nil =>
      simp only [busHandlers, List.find?_nil] at hnot ⊢
      simp [busOn, busHandlers]
    | cons p rest ih =>
      obtain ⟨ev, hs⟩ := p
      by_cases hev : ev == event
      · have hev' : ev = event := eq_of_beq hev
        subst hev'
        simp only [busHandlers, List.find?_cons, beq_self_eq_true,
          if_pos] at hnot ⊢
        simp only [busOn, beq_self_eq_true, if_pos]
        simp only [busHandlers, List.find?_cons]
        simp [hnot]
      · have hev' : (ev == event) = false :=
          Bool.not_eq_true _ ▸ eq_false_of_ne_true hev
        have hskip : busHandlers ((ev, hs) :: rest) event =
            busHandlers rest event := by
          simp [busHandlers, List.find?_cons, hev']
        rw [hskip] at hnot ⊢
        simp only [busOn, hev', Bool.false_eq_true, if_false]
        have hskip2 : busHandlers ((ev, hs) :: busOn rest event h) event =
            busHandlers (busOn rest event h) event := by
          simp [busHandlers, List.find?_cons, hev']
        rw [hskip2]
        exact ih hnot

/-- Claim C9, witness: a bus with a throwing handler between two normal
ones — all three are invoked in order, only the throwing one is logged,
nothing propagates — and an unknown event emits to nothing; the theorem
instantiated there. -/
theorem claim_C9_witness :
    ((busEmit busDemo "entity:created").invoked =
      (busHandlers busDemo "entity:created").map Handler.hid ∧
    (busEmit busDemo "entity:created").propagated = false ∧
    (busEmit busDemo "entity:created").logged =
      ((busHandlers busDemo "entity:created").filter
        (fun h => h.behavior != .ok)).map Handler.hid ∧
    (busDemo.find? (fun p => p.1 == "entity:created") = none →
      busEmit busDemo "entity:created" =
        { invoked := [], logged := [], propagated := false }) ∧
    (∀ h, (busHandlers busDemo "entity:created").any
        (fun g => g.hid == h.hid) = false →
      busHandlers (busOn busDemo "entity:created" h) "entity:created" =
        busHandlers busDemo "entity:created" ++ [h])) ∧
    busEmit busDemo "entity:deleted" =
      { invoked := [], logged := [], propagated := false } :=
  ⟨claim_C9 busDemo "entity:created",
   (claim_C9 busDemo "entity:deleted").2.2.2.1 rfl⟩

/-- Claim C7 amended, witness: the default configuration has multiplier 4
and no fast-retry phase; the theorem instantiated at it. -/
theorem claim_C7_witness :
    1 ≤ DEFAULT_RETRY_CONFIG.backoffMultiplier ∧
    DEFAULT_RETRY_CONFIG.maxFastRetries = 0 ∧
    ((∀ n, calculateRetryDelay n DEFAULT_RETRY_CONFIG ≤
        calculateRetryDelay (n + 1) DEFAULT_RETRY_CONFIG) ∧
     (∀ n, calculateRetryDelay n DEFAULT_RETRY_CONFIG ≤
        DEFAULT_RETRY_CONFIG.maxDelay)) :=
  ⟨by decide, rfl, claim_C7_amended DEFAULT_RETRY_CONFIG (by decide) rfl⟩

end VueForma
